import Mathlib

/-!
Verification of the Olympus VSI / ETS reader and its DeepZoom tiling engine.

The development shallowly embeds the arithmetic and control flow of
  - python/lib/deepzoom.c        (DeepZoom pyramid engine)
  - python/lib/argb2rgba.c       (channel reorder / unpre-multiply helper)
  - src/openslide-vendor-olympus.c (ETS container open, tile lookup, VSI detect)
into executable Lean definitions.  Machine integers are modelled as Nat/Int;
the C double values that occur here only ever carry integer (or rational)
values that doubles represent exactly for the magnitudes involved (dimensions
far below 2^53), so Nat/Int/Rat arithmetic is a faithful model.  File IO,
codecs and the XML parser are external collaborators of the code and are
abstracted as function parameters.
-/

namespace OlympusVSI

/-! ## DeepZoom pyramid arithmetic (deepzoom.c) -/

/-- Model of one halving step of deepzoom.c: the statement
w = fmax(1, ceil(w * .5)) applied to an integer-valued quantity.
For a natural number w this is exactly max 1 ((w + 1) / 2). -/
def halveDim (w : Nat) : Nat := max 1 ((w + 1) / 2)

/-- Model of deepzoom_get_level_count (deepzoom.c lines 248-262): starting
from the level-0 dimensions, count = 1, then halve both axes and increment
the count while either axis exceeds 1. -/
def dzLevelCount (w h : Nat) : Nat :=
  if w ≤ 1 ∧ h ≤ 1 then 1
  else 1 + dzLevelCount (halveDim w) (halveDim h)
termination_by max 1 w + max 1 h
decreasing_by
  simp only [halveDim]
  omega

/-- Model of deepzoom_level_dimensions_eval (deepzoom.c lines 57-81): the
loop runs i from dz_levels - 1 down to 0, stores the current (w, h) at
index i and then halves both axes; so the list of length n has the seed at
index n - 1 and each lower index holds the halving of its successor.  The
first argument is the number of levels (dpz->dz_levels). -/
def zDimsList : Nat → Nat → Nat → List (Nat × Nat)
  | 0, _, _ => []
  | n + 1, w, h => zDimsList n (halveDim w) (halveDim h) ++ [(w, h)]

/-- Model of deepzoom_level_tiles_eval (deepzoom.c lines 84-111): per level,
tiles = ceil(z_dimension / tile_size) on each axis. -/
def dzLevelTiles (tileSize : Nat) (d : Nat × Nat) : Nat × Nat :=
  ((d.1 + tileSize - 1) / tileSize, (d.2 + tileSize - 1) / tileSize)

/-! ## DeepZoom tile geometry (deepzoom_get_tile_info, deepzoom.c lines 328-406)

All quantities entering the overlap and DZ-space size computation are
integer-valued (z_overlap and z_t_downsample are int32_t, the tile indices
are int64_t, and t_dimensions / z_dimensions hold integer-valued doubles),
so Int models them exactly. -/

structure DzTileGeom where
  tlx : Int
  tly : Int
  brx : Int
  bry : Int
  zsx : Int
  zsy : Int
deriving DecidableEq, Repr

/-- Model of the in-range guard and the overlap / DZ-space-size fragment of
deepzoom_get_tile_info (deepzoom.c lines 332-360).  The C source reads
z_overlap_tl.x = dpz->z_overlap * w != 0, which by C operator precedence
is (z_overlap * w) != 0, an indicator valued 0 or 1; the bottom/right
overlap line is parenthesised and multiplies z_overlap by the indicator. -/
def deepzoomTileZGeom (overlap tileSize : Int) (tTiles zDims : Int × Int)
    (w h : Int) : Option DzTileGeom :=
  if w < 0 ∨ tTiles.1 ≤ w then none
  else if h < 0 ∨ tTiles.2 ≤ h then none
  else
    let tlx : Int := if overlap * w ≠ 0 then 1 else 0
    let tly : Int := if overlap * h ≠ 0 then 1 else 0
    let brx : Int := overlap * (if w ≠ tTiles.1 - 1 then 1 else 0)
    let bry : Int := overlap * (if h ≠ tTiles.2 - 1 then 1 else 0)
    some { tlx := tlx, tly := tly, brx := brx, bry := bry,
           zsx := min tileSize (zDims.1 - tileSize * w) + tlx + brx,
           zsy := min tileSize (zDims.2 - tileSize * h) + tly + bry }

/-- Spec-side tile geometry for comparison with deepzoomTileZGeom, written
from the specification text of claim C3: top/left overlap equals the
configured overlap when the index is greater than 0 and 0 otherwise;
bottom/right overlap equals the configured overlap when the index is less
than tiles-1 and 0 otherwise; the DZ-space tile size is
min(tile_size, z_dims - tile_size * idx) plus the two overlaps. -/
def deepzoomTileZGeomSpec (overlap tileSize : Int) (tTiles zDims : Int × Int)
    (w h : Int) : Option DzTileGeom :=
  if w < 0 ∨ tTiles.1 ≤ w then none
  else if h < 0 ∨ tTiles.2 ≤ h then none
  else
    let tlx : Int := if 0 < w then overlap else 0
    let tly : Int := if 0 < h then overlap else 0
    let brx : Int := if w < tTiles.1 - 1 then overlap else 0
    let bry : Int := if h < tTiles.2 - 1 then overlap else 0
    some { tlx := tlx, tly := tly, brx := brx, bry := bry,
           zsx := min tileSize (zDims.1 - tileSize * w) + tlx + brx,
           zsy := min tileSize (zDims.2 - tileSize * h) + tly + bry }

/-- Model of deepzoom_get_micron_per_pixel (deepzoom.c lines 292-304): the
two outputs are set from strtod exactly when both properties are present,
and both are set to 0 otherwise.  The strtod parser is an external libc
collaborator and is abstracted as a function parameter. -/
def deepzoomGetMicronPerPixel (strtod : String → ℚ)
    (mppX mppY : Option String) : ℚ × ℚ :=
  match mppX, mppY with
  | some sx, some sy => (strtod sx, strtod sy)
  | _, _ => (0, 0)

/-! ## DeepZoom open: level dimensions and bounds scaling
(deepzoom_open, deepzoom.c lines 125-230) -/

structure DzOpenDims where
  lDims : List (Int × Int)
  l0OffsetX : ℚ
  l0OffsetY : ℚ
  dzLevels : Nat
  zDims : List (Nat × Nat)
deriving DecidableEq, Repr

/-- Model of the dimension pipeline of deepzoom_open.  The slide is
abstracted by its per-level pixel dimensions (level 0 first) and by the
four bounds properties, given as already-parsed rational values (strtod is
an external collaborator; the properties carry decimal strings).  Faithful
to the source: when limit_bounds is set and a bounds property is present,
l_dimensions[i] = (ceil(w_i * bounds_w / w_0), ceil(h_i * bounds_h / h_0))
and the level-0 offset is (bounds_x, bounds_y); however dz_levels
(deepzoom_get_level_count) and z_dimensions (deepzoom_level_dimensions_eval)
are both computed from openslide_get_level0_dimensions, i.e. from the
unscaled level-0 dimensions, in every case. -/
def deepzoomOpenDims (levelDims : List (Nat × Nat))
    (bX bY bW bH : Option ℚ) (limitBounds : Bool) : DzOpenDims :=
  let l0 := levelDims.headD (0, 0)
  let lDims : List (Int × Int) :=
    if limitBounds then
      let sx : ℚ := match bW with | some bw => bw / (l0.1 : ℚ) | none => 1
      let sy : ℚ := match bH with | some bh => bh / (l0.2 : ℚ) | none => 1
      levelDims.map (fun d => (⌈(d.1 : ℚ) * sx⌉, ⌈(d.2 : ℚ) * sy⌉))
    else
      levelDims.map (fun d => ((d.1 : Int), (d.2 : Int)))
  let offX : ℚ := if limitBounds then (match bX with | some v => v | none => 0) else 0
  let offY : ℚ := if limitBounds then (match bY with | some v => v | none => 0) else 0
  let n := dzLevelCount l0.1 l0.2
  { lDims := lDims, l0OffsetX := offX, l0OffsetY := offY,
    dzLevels := n, zDims := zDimsList n l0.1 l0.2 }

/-- Spec-side DZ dimension pyramid for comparison with deepzoomOpenDims,
written from the specification text of claim C7: the halving rule seeded
from the scaled level-0 dimensions. -/
def zDimsSpecSeeded (scaledL0 : Int × Int) : List (Nat × Nat) :=
  zDimsList (dzLevelCount scaledL0.1.toNat scaledL0.2.toNat)
    scaledL0.1.toNat scaledL0.2.toNat

/-! ## Caller-buffer contract of deepzoom_get_tile
(deepzoom.c lines 409-435)

The C function receives the caller's destination pointer by value in the
parameter dest, then executes dest = g_slice_alloc(outw * outh * 4) and
passes the rebound local to openslide_read_region.  A small heap of
numbered buffers models the pointer semantics: allocation returns a fresh
address, writes go through whatever address the local holds. -/

structure Heap where
  bufs : Nat → List Nat
  next : Nat

def heapAlloc (h : Heap) (sz : Nat) : Heap × Nat :=
  (⟨fun p => if p = h.next then List.replicate sz 0 else h.bufs p, h.next + 1⟩, h.next)

def heapWrite (h : Heap) (p : Nat) (data : List Nat) : Heap :=
  ⟨fun q => if q = p then data else h.bufs q, h.next⟩

/-- Model of deepzoom_get_tile: info is the (outw, outh) part of the
deepzoom_get_tile_info result (none when any output is -1), regionData
abstracts what openslide_read_region stores for a given output size.
The function returns the heap after the call; destPtr, the caller's
buffer address, is received by value and is only ever reassigned locally,
exactly as in the source. -/
def deepzoomGetTile (h : Heap) (destPtr : Nat) (info : Option (Nat × Nat))
    (regionData : Nat → Nat → List Nat) : Heap :=
  match info with
  | none => h
  | some (ow, oh) =>
    let ap := heapAlloc h (ow * oh * 4)
    heapWrite ap.1 ap.2 (regionData ow oh)

/-! ## argb2rgba (argb2rgba.c lines 25-47)

On a little-endian host the offsets are CB = 0, CG = 1, CR = 2, CA = 3, so
a four-byte pixel is read b, g, r, a and written back r, g, b, a.  The
scaling r = r * 255 / a is C integer arithmetic: the product is an int,
the division truncates, and the assignment back to unsigned char reduces
mod 256. -/

def argb2rgbaPixel (b g r a : Nat) : List Nat :=
  if a ≠ 0 ∧ a ≠ 255 then
    [r * 255 / a % 256, g * 255 / a % 256, b * 255 / a % 256, a]
  else [r, g, b, a]

def argb2rgba : List Nat → List Nat
  | b :: g :: r :: a :: rest => argb2rgbaPixel b g r a ++ argb2rgba rest
  | l => l

/-! ## ETS container open (olympus_open_ets, openslide-vendor-olympus.c
lines 838-1017) -/

structure EtsTileRec where
  x : Nat
  y : Nat
  c : Nat
  level : Nat
  offset : Nat
  numbytes : Nat
deriving DecidableEq, Repr

/-- Fold of lines 880-888: level_count starts at 1 and is replaced by
t.level whenever t.level is larger. -/
def etsMaxLevelFold (tiles : List EtsTileRec) : Nat :=
  tiles.foldl (fun acc t => if acc < t.level then t.level else acc) 1

/-- Fold of lines 880-888: channels starts at 0 and is replaced by
t.coord[2] whenever it is larger. -/
def etsMaxChannelFold (tiles : List EtsTileRec) : Nat :=
  tiles.foldl (fun acc t => if acc < t.c then t.c else acc) 0

/-- One update of the loop in lines 899-905: tilexmax[lvl] is replaced by
the coordinate when the coordinate is larger. -/
def bumpMax (a : List Nat) (i v : Nat) : List Nat :=
  a.set i (if a.getD i 0 < v then v else a.getD i 0)

def etsTileXMax (tiles : List EtsTileRec) (n : Nat) : List Nat :=
  tiles.foldl (fun a t => bumpMax a t.level t.x) (List.replicate n 0)

def etsTileYMax (tiles : List EtsTileRec) (n : Nat) : List Nat :=
  tiles.foldl (fun a t => bumpMax a t.level t.y) (List.replicate n 0)

/-- Descending insertion, modelling the qsort with the descending
comparator ascending_compare (lines 833-835, 913-914). -/
def insertDesc (v : Nat) : List Nat → List Nat
  | [] => [v]
  | x :: xs => if x ≤ v then v :: x :: xs else x :: insertDesc v xs

def sortDesc (l : List Nat) : List Nat := l.foldr insertDesc []

/-- Per-level image dimensions (lines 921-932): level 0 gets the seed; each
further level is ceil(image_width / 2) where the division is C unsigned
integer division, i.e. floor halving followed by a no-op ceil. -/
def etsDimsChain : Nat → Nat → Nat → List (Nat × Nat)
  | 0, _, _ => []
  | n + 1, w, h => (w, h) :: etsDimsChain n (w / 2) (h / 2)

structure EtsOpenResult where
  level_count : Nat
  dims : List (Nat × Nat)
  plane_count : Nat
deriving DecidableEq, Repr

/-- Model of the level-list construction of olympus_open_ets on an already
parsed tile directory: level_count and channels from the folds of lines
880-891, tilexmax / tileymax per level sorted descending (lines 896-914),
the level-0 extent seeded as dimx * tilexmax[0] (line 931), further levels
by integer halving, and plane_count = channels == 0 ? 1 : channels
(line 972). -/
def olympusOpenEts (dimx dimy : Nat) (tiles : List EtsTileRec) : EtsOpenResult :=
  let level_count := etsMaxLevelFold tiles + 1
  let ch0 := etsMaxChannelFold tiles
  let channels := if ch0 ≠ 0 then ch0 + 1 else 0
  let txm := sortDesc (etsTileXMax tiles level_count)
  let tym := sortDesc (etsTileYMax tiles level_count)
  { level_count := level_count
    dims := etsDimsChain level_count (dimx * txm.getD 0 0) (dimy * tym.getD 0 0)
    plane_count := if channels = 0 then 1 else channels }

/-- Tile directory of the synthetic ETS of claim C1: the four level-0 tiles
(0,0,0,0), (1,0,0,0), (0,1,0,0), (1,1,0,0); offsets and byte counts are
irrelevant to the geometry and set to 0. -/
def c1TileDirectory : List EtsTileRec :=
  [⟨0, 0, 0, 0, 0, 0⟩, ⟨1, 0, 0, 0, 0, 0⟩, ⟨0, 1, 0, 0, 0, 0⟩, ⟨1, 1, 0, 0, 0, 0⟩]

/-! ## ETS tile reading (findtile, read_ets_image, read_ets_tile;
openslide-vendor-olympus.c lines 633-642, 650-718, 721-798) -/

/-- Model of findtile (lines 633-642): first tile in directory order whose
level and coordinates match. -/
def findtile (tiles : List EtsTileRec) (x y channel lvl : Nat) : Option EtsTileRec :=
  tiles.find? (fun t => t.level == lvl && (t.x == x && t.y == y && t.c == channel))

inductive EtsImageRead where
  | nullDeref
  | failed
  | ok (data : List Nat)
deriving DecidableEq, Repr

/-- Model of read_ets_image (lines 650-718) applied to the findtile result.
The function unconditionally evaluates t->offset in fseeko(f, t->offset,
SEEK_SET); when the passed tile pointer is NULL this is a null-pointer
dereference, modelled as the nullDeref outcome.  For a present tile the
fread plus codec dispatch is abstracted by the decode parameter; a decoder
failure makes the function return NULL with the error set (failed). -/
def readEtsImage (decode : EtsTileRec → Option (List Nat)) :
    Option EtsTileRec → EtsImageRead
  | none => .nullDeref
  | some t =>
    match decode t with
    | none => .failed
    | some d => .ok d

inductive EtsTileOutcome where
  | notPainted
  | nullDeref
  | failed
  | painted (data : List Nat)
deriving DecidableEq, Repr

/-- Model of read_ets_tile (lines 721-798): the channel guard returns false
(notPainted); otherwise findtile resolves the tile, the cache is consulted,
and on a cache miss read_ets_image is invoked on the findtile result,
whatever it was. -/
def readEtsTile (tiles : List EtsTileRec) (tileCh : Nat)
    (cache : Nat × Nat × Nat → Option (List Nat))
    (decode : EtsTileRec → Option (List Nat))
    (lvl col row channel : Nat) : EtsTileOutcome :=
  if tileCh < channel then .notPainted
  else
    let t := findtile tiles col row channel lvl
    match cache (col, row, channel) with
    | some data => .painted data
    | none =>
      match readEtsImage decode t with
      | .nullDeref => .nullDeref
      | .failed => .failed
      | .ok data => .painted data

/-! ## VSI format detection (olympus_vsi_detect, olympus_ets_detect,
olympus_tif_detect, _get_related_image_file;
openslide-vendor-olympus.c lines 249-519)

Strings are ASCII paths, so the char-list length of a Lean string equals
the C strlen.  GLib collaborators are modelled as follows: g_dir_open
failure makes g_dir_read_name(NULL) return NULL after a critical warning
(listDir = none behaves like an empty listing plus an error);
g_str_has_suffix(NULL, ...) returns FALSE through g_return_val_if_fail;
g_set_error on an already-set GError keeps the original message, giving
first-writer-wins error cells.  _openslide_tifflike_create and the
ImageDescription XML query are abstracted as fields of the filesystem
record. -/

/-- Model of C strncmp restricted to NUL-free strings: compare at most n
characters; a shorter string contributes its terminating NUL, which is
smaller than any character that can occur in a path component.  Only the
sign of the result is ever used. -/
def cstrncmpChars : List Char → List Char → Nat → Int
  | _, _, 0 => 0
  | [], [], _ + 1 => 0
  | [], _ :: _, _ + 1 => -1
  | _ :: _, [], _ + 1 => 1
  | a :: as, b :: bs, n + 1 =>
    if a = b then cstrncmpChars as bs n
    else (a.toNat : Int) - (b.toNat : Int)

def cstrncmp (a b : String) (n : Nat) : Int := cstrncmpChars a.data b.data n

/-- Model of g_str_has_suffix on a non-NULL string. -/
def strHasSuffix (s t : String) : Bool := List.isSuffixOf t.data s.data

/-- Model of g_str_has_suffix where the first argument may be NULL: GLib
returns FALSE for NULL input. -/
def optHasSuffix : Option String → String → Bool
  | none, _ => false
  | some s, t => strHasSuffix s t

/-- Model of g_path_get_basename for a plain file path: the component after
the last separator. -/
def gPathGetBasename (s : String) : String :=
  String.mk ((s.data.reverse.takeWhile (fun c => c ≠ '/')).reverse)

def strTakeChars (s : String) (n : Nat) : String := String.mk (s.data.take n)

def strDropRightChars (s : String) (n : Nat) : String :=
  String.mk (s.data.take (s.data.length - n))

/-- Model of g_build_filename for the two-component calls that occur here:
join with a separator unless the first component already ends in one. -/
def gBuildFilename (a b : String) : String :=
  if a.data.getLast? = some '/' then a ++ b else a ++ "/" ++ b

/-- Path of the _<stem>_ slidedat directory computed by
_get_related_image_file (lines 253-258): stem is the basename with the
.vsi extension removed, dirname is the leading strlen(filename) - 4 -
strlen(stem) characters of the path, and the two are joined. -/
def slidedatPathOf (filename : String) : String :=
  let stem := strDropRightChars (gPathGetBasename filename) 4
  let dirname := strTakeChars filename (filename.data.length - 4 - stem.data.length)
  gBuildFilename dirname ("_" ++ stem ++ "_")

structure TiffLike where
  tiled : Bool
deriving DecidableEq, Repr

structure VsiFS where
  fileExists : String → Bool
  listDir : String → Option (List String)
  tiffLikeOf : String → Option TiffLike
  xmlUserName : String → Option String

/-- Model of g_set_error semantics on a GError cell: the first writer wins,
later writes are dropped. -/
def setErr (err : Option String) (msg : String) : Option String :=
  match err with
  | none => some msg
  | some m => some m

inductive RelatedResult where
  | etsFile (path : String)
  | tifFile (path : String)
  | unknown
deriving DecidableEq, Repr

/-- Model of the DONE label of _get_related_image_file (lines 318-342):
dispatch on the suffix of current_file, which is NULL when the nested
directory produced no entries. -/
def relatedDone (err : Option String) (cf : Option String) :
    RelatedResult × Option String :=
  if optHasSuffix cf ".ets" then (.etsFile (cf.getD ""), err)
  else if optHasSuffix cf ".tif" then (.tifFile (cf.getD ""), err)
  else (.unknown, setErr err "Impossible to find related image file")

/-- Model of the body of the outer loop for one stack directory (lines
289-315): list the nested directory; the loop body unconditionally leaves
the loop after looking at the first entry, either jumping to DONE (first
entry compares at least frame_t on its first seven characters and the file
exists) or returning SLIDE_FMT_UNKNOWN with the error set.  An empty or
unopenable nested directory falls through to DONE with current_file NULL. -/
def relatedProcessStack (fs : VsiFS) (slidedatPath stackDir : String)
    (err : Option String) : RelatedResult × Option String :=
  let dataDir := gBuildFilename slidedatPath stackDir
  match fs.listDir dataDir with
  | none => relatedDone err none
  | some [] => relatedDone err none
  | some (e :: _) =>
    if 0 ≤ cstrncmp e "frame_t" 7 then
      let cf := gBuildFilename dataDir e
      if fs.fileExists cf then relatedDone err (some cf)
      else (.unknown, setErr err "Impossible to find related image file")
    else (.unknown, setErr err "Impossible to find related image file")

/-- Model of the outer loop of _get_related_image_file (lines 271-343):
entries comparing below stack1 on their first six characters are skipped;
the first remaining entry is processed and its result returned; an
exhausted listing returns SLIDE_FMT_UNKNOWN without setting the error. -/
def relatedProcessStacks (fs : VsiFS) (slidedatPath : String) :
    List String → Option String → RelatedResult × Option String
  | [], err => (.unknown, err)
  | s :: rest, err =>
    if cstrncmp s "stack1" 6 < 0 then relatedProcessStacks fs slidedatPath rest err
    else relatedProcessStack fs slidedatPath s err

/-- Model of _get_related_image_file (lines 249-346). -/
def getRelatedImageFile (fs : VsiFS) (filename : String) (err : Option String) :
    RelatedResult × Option String :=
  let sd := slidedatPathOf filename
  match fs.listDir sd with
  | none => (.unknown, setErr err "Could not open slidedat directory")
  | some entries => relatedProcessStacks fs sd entries err

/-- Model of olympus_ets_detect (lines 349-373). -/
def olympusEtsDetect (fs : VsiFS) (filename : String) (tl : Option TiffLike)
    (err : Option String) : Bool × Option String :=
  match tl with
  | some _ => (false, setErr err "Is a TIFF file")
  | none =>
    if strHasSuffix filename ".ets" = false then
      (false, setErr err "File does not have .ets extension")
    else if fs.fileExists filename = false then
      (false, setErr err "File does not exist")
    else (true, err)

/-- Model of olympus_tif_detect (lines 375-432); the ImageDescription
lookup, XML parse and XPath query are abstracted into the xmlUserName
field (none when any of them fails). -/
def olympusTifDetect (fs : VsiFS) (filename : String) (tl : Option TiffLike)
    (err : Option String) : Bool × Option String :=
  match tl with
  | none => (false, setErr err "Not a TIFF file")
  | some t =>
    if t.tiled = false then (false, setErr err "TIFF is not tiled")
    else if strHasSuffix filename ".tif" = false then
      (false, setErr err "File does not have .tif extension")
    else if fs.fileExists filename = false then
      (false, setErr err "File does not exist")
    else
      match fs.xmlUserName filename with
      | none => (false, setErr err "Could not read image description")
      | some u => if u = "olympus" then (true, err) else (false, err)

/-- Model of olympus_vsi_detect (lines 434-519): dispatch on the extension,
then for a .vsi path require existence, a non-tiled TIFF-like container,
and a related payload file, recursing into the ets or tif detector on the
payload. -/
def olympusVsiDetect (fs : VsiFS) (filename : String) (tl : Option TiffLike)
    (err : Option String) : Bool × Option String :=
  if strHasSuffix filename ".ets" then
    olympusEtsDetect fs filename (fs.tiffLikeOf filename) err
  else if strHasSuffix filename ".tif" then
    olympusTifDetect fs filename (fs.tiffLikeOf filename) err
  else if strHasSuffix filename ".vsi" = false then
    (false, setErr err "File does not have .vsi extension")
  else if fs.fileExists filename = false then
    (false, setErr err "File does not exist")
  else
    match tl with
    | none => (false, setErr err "Not a TIFF file")
    | some t =>
      if t.tiled then (false, setErr err "TIFF is tiled")
      else
        match getRelatedImageFile fs filename err with
        | (.etsFile p, err1) => olympusEtsDetect fs p (fs.tiffLikeOf p) err1
        | (.tifFile p, err1) => olympusTifDetect fs p (fs.tiffLikeOf p) err1
        | (.unknown, err1) =>
          (false, setErr err1 "Corresponding slidedat file does not exist")

/-- Filesystem of the claim C5 counterexample: /root/foo.vsi exists with a
slidedat tree whose only nested entry is zzz.ets, so no frame_t payload is
present anywhere. -/
def c5FS : VsiFS where
  fileExists := fun p => p == "/root/foo.vsi" || p == "/root/_foo_/stack1/zzz.ets"
  listDir := fun p =>
    if p = "/root/_foo_" then some ["stack1"]
    else if p = "/root/_foo_/stack1" then some ["zzz.ets"]
    else none
  tiffLikeOf := fun _ => none
  xmlUserName := fun _ => none

/-- Filesystem with no files at all, used to witness the amended claim C5. -/
def emptyFS : VsiFS where
  fileExists := fun _ => false
  listDir := fun _ => none
  tiffLikeOf := fun _ => none
  xmlUserName := fun _ => none

end OlympusVSI

namespace OlympusVSI

theorem dzLevelCount_pos (w h : Nat) : 1 ≤ dzLevelCount w h := by
  unfold dzLevelCount
  split <;> omega

theorem dzLevelCount_11 : dzLevelCount 1 1 = 1 := by
  unfold dzLevelCount
  norm_num

theorem dzLevelCount_21 : dzLevelCount 2 1 = 2 := by
  unfold dzLevelCount
  norm_num [halveDim, dzLevelCount_11]

theorem dzLevelCount_31 : dzLevelCount 3 1 = 3 := by
  unfold dzLevelCount
  norm_num [halveDim, dzLevelCount_21]

theorem dzLevelCount_22 : dzLevelCount 2 2 = 2 := by
  unfold dzLevelCount
  norm_num [halveDim, dzLevelCount_11]

theorem dzLevelCount_44 : dzLevelCount 4 4 = 3 := by
  unfold dzLevelCount
  norm_num [halveDim, dzLevelCount_22]

end OlympusVSI

namespace OlympusVSI

theorem halveDim_le (w : Nat) (hw : 1 ≤ w) : halveDim w ≤ w := by
  unfold halveDim
  omega

theorem halveDim_pos (w : Nat) : 1 ≤ halveDim w := by
  unfold halveDim
  omega

theorem max_halveDim (w h : Nat) (hw : 1 ≤ w) (hh : 1 ≤ h) :
    max (halveDim w) (halveDim h) = (max w h + 1) / 2 := by
  unfold halveDim
  omega

theorem dzLevelCount_clog_aux :
    ∀ (n w h : Nat), w + h ≤ n → 1 ≤ w → 1 ≤ h →
      dzLevelCount w h = 1 + Nat.clog 2 (max w h) := by
  intro n
  induction n with
  | zero => intro w h hle hw hh; omega
  | succ n ih =>
    intro w h hle hw hh
    unfold dzLevelCount
    by_cases hsmall : w ≤ 1 ∧ h ≤ 1
    · have hw1 : w = 1 := le_antisymm hsmall.1 hw
      have hh1 : h = 1 := le_antisymm hsmall.2 hh
      subst hw1
      subst hh1
      simp
    · rw [if_neg hsmall]
      have hmax2 : 2 ≤ max w h := by omega
      have hdec : halveDim w + halveDim h ≤ n := by
        unfold halveDim
        omega
      rw [ih (halveDim w) (halveDim h) hdec (halveDim_pos w) (halveDim_pos h)]
      rw [max_halveDim w h hw hh]
      rw [Nat.clog_of_two_le (by norm_num) hmax2]
      rw [show max w h + 2 - 1 = max w h + 1 from by omega]
      omega

end OlympusVSI

namespace OlympusVSI

theorem zDimsList_length (n : Nat) : ∀ w h, (zDimsList n w h).length = n := by
  induction n with
  | zero => intro w h; rfl
  | succ n ih =>
    intro w h
    simp [zDimsList, ih]

theorem zDimsList_last (n w h : Nat) : (zDimsList (n + 1) w h)[n]? = some (w, h) := by
  have hl : (zDimsList n (halveDim w) (halveDim h)).length = n :=
    zDimsList_length n (halveDim w) (halveDim h)
  show (zDimsList n (halveDim w) (halveDim h) ++ [(w, h)])[n]? = some (w, h)
  rw [List.getElem?_append_right (by omega), hl]
  simp

theorem zDimsList_step :
    ∀ (n w h i : Nat), i + 1 < n →
      (zDimsList n w h)[i]? =
        ((zDimsList n w h)[i + 1]?).map (fun d => (halveDim d.1, halveDim d.2)) := by
  intro n
  induction n with
  | zero => intro w h i hi; omega
  | succ n ih =>
    intro w h i hi
    have hl : (zDimsList n (halveDim w) (halveDim h)).length = n :=
      zDimsList_length n (halveDim w) (halveDim h)
    show (zDimsList n (halveDim w) (halveDim h) ++ [(w, h)])[i]? =
      ((zDimsList n (halveDim w) (halveDim h) ++ [(w, h)])[i + 1]?).map
        (fun d => (halveDim d.1, halveDim d.2))
    by_cases hlt : i + 1 < n
    · rw [List.getElem?_append_left (by omega), List.getElem?_append_left (by omega)]
      exact ih (halveDim w) (halveDim h) i hlt
    · have hn : i + 1 = n := by omega
      rw [List.getElem?_append_left (by omega)]
      rw [List.getElem?_append_right (by omega), hl]
      subst hn
      rw [zDimsList_last i (halveDim w) (halveDim h)]
      simp

theorem zDims_head_aux :
    ∀ (m w h : Nat), w + h ≤ m → 1 ≤ w → 1 ≤ h →
      (zDimsList (dzLevelCount w h) w h)[0]? = some (1, 1) := by
  intro m
  induction m with
  | zero => intro w h hle hw hh; omega
  | succ m ih =>
    intro w h hle hw hh
    by_cases hsmall : w ≤ 1 ∧ h ≤ 1
    · have hw1 : w = 1 := le_antisymm hsmall.1 hw
      have hh1 : h = 1 := le_antisymm hsmall.2 hh
      subst hw1
      subst hh1
      rw [dzLevelCount_11]
      rfl
    · have hcnt : dzLevelCount w h = dzLevelCount (halveDim w) (halveDim h) + 1 := by
        conv_lhs => unfold dzLevelCount
        rw [if_neg hsmall]
        omega
      rw [hcnt]
      have hl : (zDimsList (dzLevelCount (halveDim w) (halveDim h))
          (halveDim w) (halveDim h)).length = dzLevelCount (halveDim w) (halveDim h) :=
        zDimsList_length _ _ _
      have hpos : 1 ≤ dzLevelCount (halveDim w) (halveDim h) := dzLevelCount_pos _ _
      show (zDimsList (dzLevelCount (halveDim w) (halveDim h)) (halveDim w) (halveDim h)
        ++ [(w, h)])[0]? = some (1, 1)
      rw [List.getElem?_append_left (by omega)]
      exact ih (halveDim w) (halveDim h) (by unfold halveDim; omega)
        (halveDim_pos w) (halveDim_pos h)

end OlympusVSI

namespace OlympusVSI

/-! ## Claim C4: DeepZoom level count -/

/-- C4, counterexample: for a slide with level-0 dimensions (3, 1) the code
returns 3 DeepZoom levels, but 1 + floor(log2(max(3, 1))) = 2, so the
claimed formula with the floor of the logarithm is false. -/
theorem dz_level_count_not_floor_log :
    ¬ (dzLevelCount 3 1 = 1 + Nat.log 2 (max 3 1)) := by
  have hlog : Nat.log 2 3 = 1 :=
    Nat.log_eq_of_pow_le_of_lt_pow (by norm_num) (by norm_num)
  rw [show max 3 1 = 3 from rfl, dzLevelCount_31, hlog]
  omega

/-- C4 (amended): for every opened slide with level-0 dimensions (W, H),
both at least 1, deepzoom_get_level_count returns
1 + ceil(log2(max(W, H))): the loop halves both axes (each axis
max(1, ceil(d/2))) until both reach 1, counting iterations. -/
theorem dz_level_count_ceil_log (w h : Nat) (hw : 1 ≤ w) (hh : 1 ≤ h) :
    dzLevelCount w h = 1 + Nat.clog 2 (max w h) :=
  dzLevelCount_clog_aux (w + h) w h le_rfl hw hh

/-- Witness for dz_level_count_ceil_log at the 1024 by 512 slide of the
specification scenarios. -/
theorem dz_level_count_ceil_log_witness :
    dzLevelCount 1024 512 = 1 + Nat.clog 2 (max 1024 512) :=
  dz_level_count_ceil_log 1024 512 (by norm_num) (by norm_num)

/-! ## Claim C2: DeepZoom level-dimension chain -/

/-- C2, counterexample: for a slide with level-0 dimensions (4, 4) the
z_dimensions array built by deepzoom_level_dimensions_eval holds the
largest dimension at index N-1, not (1, 1): the entry at N-1 is (4, 4). -/
theorem dz_dims_top_level_not_unit :
    ¬ ((zDimsList (dzLevelCount 4 4) 4 4)[dzLevelCount 4 4 - 1]? = some (1, 1)) := by
  rw [dzLevelCount_44]
  decide

/-- C2 (amended): for every DeepZoom slide with level-0 dimensions (W, H),
both at least 1, and N = deepzoom_get_level_count, the level-dimensions
array satisfies get_level_dimensions(0) = (1, 1), and for every
0 <= i < N-1, get_level_dimensions(i) equals the per-axis ceiling-halving
(floored at 1) of get_level_dimensions(i+1); the smallest level sits at
index 0 and the largest at index N-1. -/
theorem dz_level_dimensions_halving_chain (w h : Nat) (hw : 1 ≤ w) (hh : 1 ≤ h) :
    (zDimsList (dzLevelCount w h) w h)[0]? = some (1, 1) ∧
    ∀ i, i + 1 < dzLevelCount w h →
      (zDimsList (dzLevelCount w h) w h)[i]? =
        ((zDimsList (dzLevelCount w h) w h)[i + 1]?).map
          (fun d => (halveDim d.1, halveDim d.2)) :=
  ⟨zDims_head_aux (w + h) w h le_rfl hw hh,
   fun i hi => zDimsList_step (dzLevelCount w h) w h i hi⟩

/-- Witness for dz_level_dimensions_halving_chain at the 1024 by 512 slide. -/
theorem dz_level_dimensions_halving_chain_witness :
    (zDimsList (dzLevelCount 1024 512) 1024 512)[0]? = some (1, 1) :=
  (dz_level_dimensions_halving_chain 1024 512 (by norm_num) (by norm_num)).1

end OlympusVSI

namespace OlympusVSI

/-! ## Claim C3: tile overlaps and DZ-space size -/

/-- C3: with overlap 2, tile size 254, a level of 2 by 1 tiles with
z_dimensions (300, 100), at tile (col 1, row 0) the code computes a
top/left x-overlap of 1 (the unparenthesised z_overlap * w != 0 is an
indicator) and a DZ-space width of 47, while the claimed geometry has
top/left overlap 2 and width 48; all other fields agree. -/
theorem dz_tile_overlap_precedence_divergence :
    deepzoomTileZGeom 2 254 (2, 1) (300, 100) 1 0 =
      some { tlx := 1, tly := 0, brx := 0, bry := 0, zsx := 47, zsy := 100 } ∧
    deepzoomTileZGeomSpec 2 254 (2, 1) (300, 100) 1 0 =
      some { tlx := 2, tly := 0, brx := 0, bry := 0, zsx := 48, zsy := 100 } := by
  decide

/-! ## Claim C9: argb2rgba on one pixel -/

/-- C9, counterexample: argb2rgba on the little-endian pixel
[0x80, 0x40, 0x20, 0x80] does not produce the claimed rounded values
[0x40, 0x80, 0xFF, 0x80]. -/
theorem argb2rgba_not_rounded :
    ¬ (argb2rgba [0x80, 0x40, 0x20, 0x80] = [0x40, 0x80, 0xFF, 0x80]) := by
  decide

/-- C9 (amended): argb2rgba on the little-endian pixel
[0x80, 0x40, 0x20, 0x80] (b = 0x80, g = 0x40, r = 0x20, a = 0x80) produces
[0x3F, 0x7F, 0xFF, 0x80] in r, g, b, a order: each colour channel is
scaled by 255 / a with truncating (floor) integer division. -/
theorem argb2rgba_truncating_division :
    argb2rgba [0x80, 0x40, 0x20, 0x80] =
      [0x20 * 255 / 0x80, 0x40 * 255 / 0x80, 0x80 * 255 / 0x80, 0x80] ∧
    argb2rgba [0x80, 0x40, 0x20, 0x80] = [0x3F, 0x7F, 0xFF, 0x80] := by
  decide

/-! ## Claim C1: synthetic ETS open -/

/-- C1: opening the synthetic ETS whose tile directory holds exactly the
four level-0 tiles (0,0,0,0), (1,0,0,0), (0,1,0,0), (1,1,0,0) with
dimx = dimy = 2 yields level_count = 2 (the max-level fold is seeded with
1 and then incremented), level 0 dimensions (2, 2) (the extent is
dimx * tilexmax, not dimx * (tilexmax + 1)), and plane_count = 1; the
claimed level_count = 1 and level_dimensions(0) = (4, 4) do not hold. -/
theorem ets_open_synthetic_four_tiles :
    olympusOpenEts 2 2 c1TileDirectory =
      { level_count := 2, dims := [(2, 2), (1, 1)], plane_count := 1 } ∧
    ¬ ((olympusOpenEts 2 2 c1TileDirectory).level_count = 1 ∧
       (olympusOpenEts 2 2 c1TileDirectory).dims.getD 0 (0, 0) = (4, 4)) := by
  decide

/-! ## Claim C6: missing tile in the ETS index -/

/-- C6: a tile request whose coordinates are absent from the tile index
(findtile returns no entry) with a cold cache reaches read_ets_image with
a NULL tile pointer, which dereferences t->offset: the outcome is a
null-pointer dereference, not a zero-filled black tile, whatever the
decoder would do. -/
theorem ets_missing_tile_null_deref (decode : EtsTileRec → Option (List Nat)) :
    readEtsTile [] 0 (fun _ => none) decode 0 0 0 0 = EtsTileOutcome.nullDeref := rfl

/-! ## Claim C8: caller buffer of deepzoom_get_tile -/

/-- C8: for every heap, every valid caller buffer address and every tile,
deepzoom_get_tile leaves the caller's buffer unchanged: the function
reassigns its by-value dest parameter to a freshly allocated buffer and
read_region writes into that fresh buffer, so the pixels never reach the
memory the caller owns. -/
theorem dz_get_tile_caller_buffer_unchanged (h : Heap) (destPtr : Nat)
    (info : Option (Nat × Nat)) (regionData : Nat → Nat → List Nat)
    (hvalid : destPtr < h.next) :
    (deepzoomGetTile h destPtr info regionData).bufs destPtr = h.bufs destPtr := by
  cases info with
  | none => rfl
  | some wh =>
    obtain ⟨ow, oh⟩ := wh
    have hne : destPtr ≠ h.next := Nat.ne_of_lt hvalid
    simp [deepzoomGetTile, heapAlloc, heapWrite, hne]

/-- Witness for dz_get_tile_caller_buffer_unchanged: a one-buffer heap, a
valid in-range tile of output size 1 by 1 and nonzero region data still
leave the caller's buffer empty. -/
theorem dz_get_tile_caller_buffer_unchanged_witness :
    (deepzoomGetTile ⟨fun _ => [], 1⟩ 0 (some (1, 1))
      (fun _ _ => [7, 7, 7, 7])).bufs 0 = [] :=
  dz_get_tile_caller_buffer_unchanged ⟨fun _ => [], 1⟩ 0 (some (1, 1))
    (fun _ _ => [7, 7, 7, 7]) (by norm_num)

/-! ## Claim C10: micron-per-pixel outputs -/

/-- C10: deepzoom_get_micron_per_pixel sets its two outputs all-or-nothing:
when either of the properties openslide.mpp-x, openslide.mpp-y is absent
both outputs are 0, and when both are present both outputs carry the
parsed values. -/
theorem mpp_all_or_nothing (strtod : String → ℚ) (px py : Option String) :
    ((px = none ∨ py = none) → deepzoomGetMicronPerPixel strtod px py = (0, 0)) ∧
    (∀ sx sy, px = some sx → py = some sy →
      deepzoomGetMicronPerPixel strtod px py = (strtod sx, strtod sy)) := by
  constructor
  · intro hcase
    cases px <;> cases py <;> simp_all [deepzoomGetMicronPerPixel]
  · rintro sx sy rfl rfl
    rfl

/-- Witness for mpp_all_or_nothing: a slide carrying only mpp-x reports
(0, 0). -/
theorem mpp_all_or_nothing_witness :
    deepzoomGetMicronPerPixel (fun _ => (5 : ℚ)) (some "0.25") none = (0, 0) :=
  (mpp_all_or_nothing (fun _ => (5 : ℚ)) (some "0.25") none).1 (Or.inr rfl)

end OlympusVSI

namespace OlympusVSI

/-! ## Claim C7: DeepZoom dimensions under limit_bounds -/

/-- C7: on a slide with level-0 dimensions (4, 4) opened with limit_bounds
and bounds-width = bounds-height = 2, deepzoom_open scales l_dimensions to
(2, 2) but seeds both the level count and z_dimensions from the unscaled
openslide_get_level0_dimensions, producing the full-slide pyramid
[(1,1), (2,2), (4,4)]; the claimed pyramid seeded from the scaled
level-0 dimensions would be [(1,1), (2,2)]. -/
theorem dz_zdims_ignore_bounds_scaling :
    (deepzoomOpenDims [(4, 4)] (some 0) (some 0) (some 2) (some 2) true).lDims
      = [(2, 2)] ∧
    (deepzoomOpenDims [(4, 4)] (some 0) (some 0) (some 2) (some 2) true).zDims
      = [(1, 1), (2, 2), (4, 4)] ∧
    zDimsSpecSeeded (2, 2) = [(1, 1), (2, 2)] := by
  refine ⟨?_, ?_, ?_⟩
  · simp only [deepzoomOpenDims]
    norm_num
  · show zDimsList (dzLevelCount 4 4) 4 4 = [(1, 1), (2, 2), (4, 4)]
    rw [dzLevelCount_44]
    decide
  · show zDimsList (dzLevelCount 2 2) 2 2 = [(1, 1), (2, 2)]
    rw [dzLevelCount_22]
    decide

end OlympusVSI

namespace OlympusVSI

theorem setErr_isSome (err : Option String) (msg : String) :
    (setErr err msg).isSome = true := by
  cases err <;> rfl

theorem relatedProcessStacks_unknown (fs : VsiFS) (sd : String)
    (hno : ∀ s e : String, 0 ≤ cstrncmp e "frame_t" 7 →
      fs.fileExists (gBuildFilename (gBuildFilename sd s) e) = false) :
    ∀ (entries : List String) (err : Option String),
      (relatedProcessStacks fs sd entries err).1 = RelatedResult.unknown := by
  intro entries
  induction entries with
  | nil => intro err; rfl
  | cons s rest ih =>
    intro err
    show (if cstrncmp s "stack1" 6 < 0 then relatedProcessStacks fs sd rest err
      else relatedProcessStack fs sd s err).1 = RelatedResult.unknown
    by_cases hskip : cstrncmp s "stack1" 6 < 0
    · rw [if_pos hskip]
      exact ih err
    · rw [if_neg hskip]
      simp only [relatedProcessStack]
      cases hnd : fs.listDir (gBuildFilename sd s) with
      | none => rfl
      | some es =>
        cases es with
        | nil => rfl
        | cons e rest2 =>
          by_cases hcmp : 0 ≤ cstrncmp e "frame_t" 7
          · simp only [if_pos hcmp, hno s e hcmp]
            rfl
          · simp only [if_neg hcmp]

theorem getRelatedImageFile_unknown (fs : VsiFS) (filename : String)
    (err : Option String)
    (hno : ∀ s e : String, 0 ≤ cstrncmp e "frame_t" 7 →
      fs.fileExists
        (gBuildFilename (gBuildFilename (slidedatPathOf filename) s) e) = false) :
    (getRelatedImageFile fs filename err).1 = RelatedResult.unknown := by
  simp only [getRelatedImageFile]
  cases hd : fs.listDir (slidedatPathOf filename) with
  | none => rfl
  | some entries => exact relatedProcessStacks_unknown fs _ hno entries err

/-! ## Claim C5: VSI detection without a payload -/

/-- C5, counterexample: the claim is false as stated.  On the filesystem
c5FS the path /root/foo.vsi has no sibling frame_t.ets or frame_t.tif
payload, yet detection succeeds (returns recognized): the reader accepts
the first stack entry whose name compares at least frame_t on its first
seven characters, here zzz.ets. -/
theorem vsi_detect_accepts_non_frame_payload :
    (olympusVsiDetect c5FS "/root/foo.vsi" (some ⟨false⟩) none).1 = true ∧
    c5FS.fileExists "/root/_foo_/stack1/frame_t.ets" = false ∧
    c5FS.fileExists "/root/_foo_/stack1/frame_t.tif" = false := by
  decide

/-- C5 (amended): for every path ending in .vsi (hence not in .ets or
.tif) for which no existing file under _<stem>_/stack*/ has a name whose
first seven characters compare at least frame_t (in particular no
frame_t.ets or frame_t.tif payload), olympus_vsi_detect returns false
(NotRecognized) with an error message set, for every TIFF-like status of
the container and every filesystem; the detection function is total. -/
theorem vsi_detect_no_payload_not_recognized (fs : VsiFS) (filename : String) (tl : Option TiffLike)
    ( _hv : strHasSuffix filename ".vsi" = true)
    (he : strHasSuffix filename ".ets" = false)
    (ht : strHasSuffix filename ".tif" = false)
    (hno : ∀ s e : String, 0 ≤ cstrncmp e "frame_t" 7 →
      fs.fileExists
        (gBuildFilename (gBuildFilename (slidedatPathOf filename) s) e) = false) :
    (olympusVsiDetect fs filename tl none).1 = false ∧
    (olympusVsiDetect fs filename tl none).2.isSome = true := by
  unfold olympusVsiDetect
  rw [he, ht]
  rw [if_neg (by simp), if_neg (by simp)]
  cases hvsi : strHasSuffix filename ".vsi" with
  | false => rw [if_pos rfl]; exact ⟨rfl, rfl⟩
  | true =>
    rw [if_neg (by simp)]
    cases hex : fs.fileExists filename with
    | false => rw [if_pos rfl]; exact ⟨rfl, rfl⟩
    | true =>
      rw [if_neg (by simp)]
      cases tl with
      | none => exact ⟨rfl, rfl⟩
      | some t =>
        dsimp only
        cases htl : t.tiled with
        | true => rw [if_pos rfl]; exact ⟨rfl, rfl⟩
        | false =>
          rw [if_neg (by simp)]
          rcases hrel : getRelatedImageFile fs filename none with ⟨r, e1⟩
          have hru : r = RelatedResult.unknown := by
            have hx := getRelatedImageFile_unknown fs filename none hno
            rw [hrel] at hx
            exact hx
          subst hru
          exact ⟨rfl, setErr_isSome e1 _⟩

/-- Witness for vsi_detect_no_payload_not_recognized: an empty filesystem
and the path /root/foo.vsi. -/
theorem vsi_detect_no_payload_not_recognized_witness :
    (olympusVsiDetect emptyFS "/root/foo.vsi" (some ⟨false⟩) none).1 = false ∧
    (olympusVsiDetect emptyFS "/root/foo.vsi" (some ⟨false⟩) none).2.isSome = true :=
  vsi_detect_no_payload_not_recognized emptyFS "/root/foo.vsi" (some ⟨false⟩)
    (by decide) (by decide) (by decide) (fun _ _ _ => rfl)

end OlympusVSI
